import Mathlib

/-! Verification of the Data View Assembler of the Global Health Explorer
dashboard (`global_health_dashboard.py`).

The script loads a JSON artifact, assembles a row-per-country table
(pandas DataFrame), filters it by per-cluster visibility toggles, and
renders per-cluster summaries and a per-country detail panel.  Python
numbers are modelled as exact rationals; Python dicts as association
lists with distinct keys; the pandas DataFrame as a list of `Row`
records.  Fallible steps (KeyError, ValueError, the file-not-found
halt) are modelled with `Except` / explicit outcome types. -/

deriving instance DecidableEq for Except

namespace GlobalHealth

/-! ## String and number helpers (models of Python primitives) -/

/-- Accumulate decimal digits, used to model Python `int` applied to the
canonical decimal string keys of `cluster_labels` (such as "0", "3"). -/
def natOfDigits (ds : List Char) : ℕ :=
  ds.foldl (fun a c => a * 10 + (c.toNat - 48)) 0

/-- Model of Python `int(s)` on canonical decimal integer strings. -/
def strToInt (s : String) : ℤ :=
  match s.data with
  | '-' :: ds => - (natOfDigits ds : ℤ)
  | ds => (natOfDigits ds : ℤ)

/-- Model of the Python substring test `need in hay` on character lists. -/
def listContainsSub (hay need : List Char) : Bool :=
  need.isPrefixOf hay ||
    match hay with
    | [] => false
    | _ :: t => listContainsSub t need

/-- Model of the Python substring test `need in hay` on strings. -/
def strContainsSub (hay need : String) : Bool :=
  listContainsSub hay.data need.data

/-- Round-half-even (the rounding of Python float formatting) of `q * s`,
computed with integer arithmetic on the numerator and denominator so that
concrete instances reduce in the kernel. -/
def roundHalfEvenScaled (q : ℚ) (s : ℤ) : ℤ :=
  let n := q.num * s
  let f := n.fdiv (q.den : ℤ)
  let r := n - f * (q.den : ℤ)
  if 2 * r < (q.den : ℤ) then f
  else if (q.den : ℤ) < 2 * r then f + 1
  else if f % 2 = 0 then f else f + 1

/-- Insert a comma after every three characters of a reversed digit list:
the grouping step of the Python format `{:,.0f}`. -/
def groupRev : List Char → List Char
  | c1 :: c2 :: c3 :: c4 :: rest => c1 :: c2 :: c3 :: ',' :: groupRev (c4 :: rest)
  | l => l

/-- Decimal rendering of a natural number with thousands separators. -/
def commaFmtNat (n : ℕ) : String :=
  ⟨(groupRev (toString n).data.reverse).reverse⟩

/-- Model of the Python f-string piece `${v:,.0f}` (source lines 229 and
253): currency with zero decimal places and thousands separators. -/
def pyFormatCurrency0 (q : ℚ) : String :=
  let n := roundHalfEvenScaled q 1
  if n < 0 then "$-" ++ commaFmtNat n.natAbs else "$" ++ commaFmtNat n.natAbs

/-- Model of the Python f-string piece `{v:.1f}` (source lines 231 and
255): fixed-point with exactly one decimal place. -/
def pyFormatFixed1 (q : ℚ) : String :=
  let n := roundHalfEvenScaled q 10
  let s := toString (n.natAbs / 10) ++ "." ++ toString (n.natAbs % 10)
  if n < 0 then "-" ++ s else s

/-- Model of Python `list.index`: index of the first occurrence, `none`
when the element is absent (where Python raises ValueError). -/
def pyIndex {α : Type} [DecidableEq α] (l : List α) (x : α) : Option ℕ :=
  match l with
  | [] => none
  | y :: t => if y = x then some 0 else (pyIndex t x).map Nat.succ

/-! ## Data model (spec section 3, source lines 60-104) -/

/-- The loaded JSON document, after all required keys are known to be
present (the shape the dashboard assumes from line 76 on). -/
structure Dataset where
  countries : List String
  clusters : List ℤ
  cluster_labels : List (String × String)
  embeddings : List (String × List ℚ × List ℚ)
  indicators : List (String × List (Option ℚ))
  variance_explained : Option (List (String × ℚ))
  cluster_averages : List (String × List (String × Option ℚ))
deriving DecidableEq

/-- The validity invariant of spec section 3: country-indexed sequences
all have length `len(countries)`, country names are unique, and every
cluster id occurring in `clusters` has an entry in `cluster_labels`. -/
def Dataset.valid (d : Dataset) : Prop :=
  d.countries.Nodup ∧
  d.clusters.length = d.countries.length ∧
  (∀ e ∈ d.embeddings, e.2.1.length = d.countries.length ∧
      e.2.2.length = d.countries.length) ∧
  (∀ p ∈ d.indicators, p.2.length = d.countries.length) ∧
  (∀ c ∈ d.clusters, (d.cluster_labels.lookup (toString c)).isSome = true)

instance (d : Dataset) : Decidable d.valid := by
  unfold Dataset.valid
  infer_instance

/-- One row of the assembled DataFrame (source lines 76-89): country,
cluster id, cluster display name, then one (x, y) pair of columns per
embedding method and one column per indicator. -/
structure Row where
  Country : String
  Cluster : ℤ
  Cluster_Name : String
  coords : List (String × ℚ × ℚ)
  inds : List (String × Option ℚ)
deriving DecidableEq

/-- The row of country index `i` (source lines 76-89; out-of-range
defaults are irrelevant under `Dataset.valid`). -/
def buildRow (d : Dataset) (i : ℕ) : Row :=
  { Country := d.countries.getD i ""
    Cluster := d.clusters.getD i 0
    Cluster_Name :=
      (d.cluster_labels.lookup (toString (d.clusters.getD i 0))).getD ""
    coords := d.embeddings.map fun e => (e.1, e.2.1.getD i 0, e.2.2.getD i 0)
    inds := d.indicators.map fun p => (p.1, p.2.getD i none) }

/-- The assembled row table `df` (source lines 76-89), one row per
country in order. -/
def build_rows (d : Dataset) : List Row :=
  (List.range d.countries.length).map (buildRow d)

/-- The visible cluster ids `[c for c, show in show_clusters.items() if show]`
(source line 143). -/
def visibleIds (show_clusters : List (ℤ × Bool)) : List ℤ :=
  (show_clusters.filter fun p => p.2).map fun p => p.1

/-- The cluster-membership filter `df[df.Cluster.isin(visible)]`
(source lines 143-144). -/
def filter_rows (rows : List Row) (visible : List ℤ) : List Row :=
  rows.filter fun r => visible.contains r.Cluster

/-! ## Display formatting and the derived lookups -/

/-- The indicator display rule of the country detail panel (source lines
250-257): names containing "GDP" format as currency, other numeric
values with one decimal place, and a null value as "N/A". -/
def formatMetricValue (ind_name : String) (val : Option ℚ) : String :=
  match val with
  | none => "N/A"
  | some v =>
    if strContainsSub ind_name "GDP" then pyFormatCurrency0 v
    else pyFormatFixed1 v

/-- Failure of the country lookup: Python `list.index` raises ValueError
when the name is absent (the NotFoundError of the spec). -/
inductive DetailError
  | notFound
deriving DecidableEq

/-- The country detail panel content (source lines 241-258): the cluster
display name and, for each indicator shown, its name, the raw value at
the country index, and the rendered string. -/
structure CountryDetail where
  cluster_name : String
  metrics : List (String × Option ℚ × String)
deriving DecidableEq

/-- The country detail section (source lines 241-258).  `idx` is the
index of the selected country; the detail displays the cluster label of
`clusters[idx]` and the first two indicators at index `idx` (the layout
allots three columns, the first taken by the cluster, so at most two
indicators render: `cols = st.columns(3)` with `if i < len(cols)`). -/
def country_detail (d : Dataset) (name : String) :
    Except DetailError CountryDetail :=
  match pyIndex d.countries name with
  | none => .error .notFound
  | some idx =>
    .ok { cluster_name :=
            (d.cluster_labels.lookup (toString (d.clusters.getD idx 0))).getD ""
          metrics := (d.indicators.take 2).map fun p =>
            (p.1, p.2.getD idx none, formatMetricValue p.1 (p.2.getD idx none)) }

/-- One cluster profile card (source lines 213-217): display name, the
count of countries in the cluster, and the stored averages. -/
structure ClusterSummary where
  name : String
  count : ℕ
  averages : List (String × Option ℚ)
deriving DecidableEq

/-- The per-cluster summary (source lines 213-217): `count` is
`sum(1 for c in clusters if c == cid)` and `averages` is
`data.get("cluster_averages", {}).get(str(cid), {})`. -/
def cluster_summary (d : Dataset) (cid : ℤ) : ClusterSummary :=
  { name := (d.cluster_labels.lookup (toString cid)).getD ""
    count := (d.clusters.filter fun c => c == cid).length
    averages := (d.cluster_averages.lookup (toString cid)).getD [] }

/-- The cluster profiles column (source lines 211-217): `for cid in
range(4): if show_clusters.get(cid, True): ...` — a hardcoded range of
four cluster ids, each gated by its visibility toggle. -/
def cluster_profiles (d : Dataset) (show_clusters : List (ℤ × Bool)) :
    List (ℤ × ClusterSummary) :=
  ((List.range 4).map fun n => (n : ℤ)).filterMap fun cid =>
    if (show_clusters.lookup cid).getD true then
      some (cid, cluster_summary d cid)
    else none

/-- The sidebar visibility toggles (source lines 126-127): one checkbox
per `cluster_labels` key, keyed by `int(i)`; the checkbox states are
external input, modelled as a function from label key to Bool. -/
def show_clusters_of (labels : List (String × String))
    (checkbox : String → Bool) : List (ℤ × Bool) :=
  labels.map fun p => (strToInt p.1, checkbox p.1)

/-- The average lines rendered inside one cluster profile card (source
lines 226-232): one (indicator name, display string) pair per non-null
average; a null average produces no line at all. -/
def clusterAvgLines (avg_data : List (String × Option ℚ)) :
    List (String × String) :=
  avg_data.filterMap fun p =>
    match p.2 with
    | none => none
    | some v =>
      some (p.1, if strContainsSub p.1 "GDP" then pyFormatCurrency0 v
                 else pyFormatFixed1 v)

/-! ## Loading the artifact (source lines 60-89) -/

/-- The raw parsed JSON document: every key may be absent, which
`json.load` does not check. -/
structure RawDoc where
  countries : Option (List String)
  clusters : Option (List ℤ)
  cluster_labels : Option (List (String × String))
  embeddings : Option (List (String × List ℚ × List ℚ))
  indicators : Option (List (String × List (Option ℚ)))
  variance_explained : Option (List (String × ℚ))
  cluster_averages : Option (List (String × List (String × Option ℚ)))
deriving DecidableEq

/-- Outcome of `load_data` (source lines 60-71): either the parsed
document, or the `st.error` message followed by `st.stop()`. -/
inductive LoadOutcome
  | ok (doc : RawDoc)
  | halted (msg : String)
deriving DecidableEq

/-- The `st.error` message shown when the artifact file is absent
(source line 66). -/
def missingDataMsg : String :=
  "❌ `dashboard_data.json` not found. Please run the export script in your notebook first."

/-- Model of `load_data` (source lines 60-71): the file system is an
`Option RawDoc` (`none` = file absent).  When the file exists the
document is returned with no validation at all; when it is absent the
script shows `missingDataMsg` and halts (`st.stop()`). -/
def load_data (file : Option RawDoc) : LoadOutcome :=
  match file with
  | some doc => .ok doc
  | none => .halted missingDataMsg

/-- The failures of the DataFrame assembly (source lines 76-89): Python
KeyError on a missing dict key, and pandas ValueError on a column whose
length differs from the table length. -/
inductive BuildError
  | keyError (key : String)
  | valueError
deriving DecidableEq

/-- Model of a Python dict subscript `doc[key]`: KeyError when absent. -/
def reqKey {α : Type} (v : Option α) (key : String) : Except BuildError α :=
  match v with
  | some x => .ok x
  | none => .error (.keyError key)

/-- Model of `cluster_labels[str(c)]` inside the list comprehension of
source line 79: KeyError on a cluster id without a label. -/
def lookupLabel (labels : List (String × String)) (c : ℤ) :
    Except BuildError String :=
  match labels.lookup (toString c) with
  | some n => .ok n
  | none => .error (.keyError (toString c))

/-- The DataFrame assembly (source lines 76-89) applied to a raw parsed
document, with the Python failure points in evaluation order: subscripts
of required keys raise KeyError, the label comprehension raises KeyError
on an unlabelled cluster id, and length mismatches raise ValueError
(from the DataFrame constructor or a column assignment). -/
def build_df (doc : RawDoc) : Except BuildError (List Row) := do
  let countries ← reqKey doc.countries "countries"
  let clusters ← reqKey doc.clusters "clusters"
  let labels ← reqKey doc.cluster_labels "cluster_labels"
  let _names ← clusters.mapM (lookupLabel labels)
  if clusters.length == countries.length then
    let embeddings ← reqKey doc.embeddings "embeddings"
    if embeddings.all fun e =>
        e.2.1.length == countries.length && e.2.2.length == countries.length then
      let indicators := doc.indicators.getD []
      if indicators.all fun p => p.2.length == countries.length then
        pure (build_rows
          { countries := countries
            clusters := clusters
            cluster_labels := labels
            embeddings := embeddings
            indicators := indicators
            variance_explained := doc.variance_explained
            cluster_averages := doc.cluster_averages.getD [] })
      else .error .valueError
    else .error .valueError
  else .error .valueError

/-! ## Selected-country highlight (source lines 172-183) -/

/-- The highlight lookup `cd = df[df.Country == selected_country]`
(source line 173): note it reads the unfiltered table `df`. -/
def highlight_rows (rows : List Row) (sel : String) : List Row :=
  rows.filter fun r => r.Country == sel

/-- The highlight marker trace (source lines 172-183): added only when a
country is selected and the lookup is non-empty, at the x and y columns
of the matched rows for the chosen method. -/
def highlight_marker (rows : List Row) (sel : String) (method : String) :
    Option (List ℚ × List ℚ) :=
  if sel = "" then none
  else
    let cd := highlight_rows rows sel
    if cd.length = 0 then none
    else some
      (cd.map fun r => ((r.coords.lookup method).getD (0, 0)).1,
       cd.map fun r => ((r.coords.lookup method).getD (0, 0)).2)

/-! ## Concrete sample data used in witnesses and counterexamples -/

/-- The rational 52000.4, given in normalized form so that the display
formatters reduce in the kernel. -/
def gdpExampleVal : ℚ := ⟨260002, 5, by decide, by decide⟩

/-- The rational 7.86, given in normalized form so that the display
formatters reduce in the kernel. -/
def lifeExampleVal : ℚ := ⟨393, 50, by decide, by decide⟩

/-- A small valid dataset: two countries in two clusters, one embedding
method, one indicator, stored averages for cluster 0. -/
def dEx : Dataset :=
  { countries := ["A", "B"]
    clusters := [0, 1]
    cluster_labels := [("0", "Developed Nations"), ("1", "Least Developed")]
    embeddings := [("PCA", [1, 2], [3, 4])]
    indicators := [("GDP per capita", [some gdpExampleVal, none])]
    variance_explained := none
    cluster_averages := [("0", [("GDP per capita", some gdpExampleVal)])] }

/-- A valid dataset with three indicators, exercising the three-column
cap of the country detail panel. -/
def dThreeInd : Dataset :=
  { countries := ["Alpha"]
    clusters := [0]
    cluster_labels := [("0", "Developed Nations")]
    embeddings := []
    indicators := [("I1", [some 1]), ("I2", [some 2]), ("I3", [some 3])]
    variance_explained := none
    cluster_averages := [] }

/-- A dataset whose labels and cluster assignments mention cluster id 5,
outside the hardcoded profile range. -/
def dFiveClusters : Dataset :=
  { countries := ["A"]
    clusters := [5]
    cluster_labels := [("0", "a"), ("1", "b"), ("2", "c"), ("3", "d"), ("5", "f")]
    embeddings := []
    indicators := []
    variance_explained := none
    cluster_averages := [] }

/-- A parsed JSON document missing the required `countries` key. -/
def docMissingCountries : RawDoc :=
  { countries := none
    clusters := some [0]
    cluster_labels := some [("0", "X")]
    embeddings := some []
    indicators := none
    variance_explained := none
    cluster_averages := none }

/-- A stored per-cluster averages mapping with a null entry, exercising
the profile card rendering loop. -/
def avgEx : List (String × Option ℚ) :=
  [("Life Expectancy", none), ("GDP per capita", some gdpExampleVal)]

/-- A parsed JSON document where `clusters` has fewer entries than
`countries`. -/
def docLengthMismatch : RawDoc :=
  { countries := some ["A", "B"]
    clusters := some [0]
    cluster_labels := some [("0", "X")]
    embeddings := some []
    indicators := none
    variance_explained := none
    cluster_averages := none }

/-! ## Helper lemmas -/

lemma pyIndex_eq_none {α : Type} [DecidableEq α] {l : List α} {x : α}
    (h : x ∉ l) : pyIndex l x = none := by
  induction l with
  | nil => rfl
  | cons y t ih =>
    simp only [List.mem_cons, not_or] at h
    have hne : ¬ y = x := fun he => h.1 he.symm
    simp [pyIndex, hne, ih h.2]

lemma pyIndex_some_lt {α : Type} [DecidableEq α] :
    ∀ {l : List α} {x : α} {i : ℕ}, pyIndex l x = some i → i < l.length := by
  intro l
  induction l with
  | nil => intro x i h; simp [pyIndex] at h
  | cons y t ih =>
    intro x i h
    by_cases hyx : y = x
    · simp only [pyIndex, if_pos hyx, Option.some.injEq] at h
      subst h
      simp
    · simp only [pyIndex, if_neg hyx, Option.map_eq_some'] at h
      obtain ⟨j, hj, hji⟩ := h
      have := ih hj
      simp only [List.length_cons]
      omega

lemma pyIndex_some_getElem? {α : Type} [DecidableEq α] :
    ∀ {l : List α} {x : α} {i : ℕ}, pyIndex l x = some i → l[i]? = some x := by
  intro l
  induction l with
  | nil => intro x i h; simp [pyIndex] at h
  | cons y t ih =>
    intro x i h
    by_cases hyx : y = x
    · simp only [pyIndex, if_pos hyx, Option.some.injEq] at h
      subst h
      simp [hyx]
    · simp only [pyIndex, if_neg hyx, Option.map_eq_some'] at h
      obtain ⟨j, hj, hji⟩ := h
      subst hji
      simpa using ih hj

lemma pyIndex_of_nodup_getElem? {α : Type} [DecidableEq α] :
    ∀ {l : List α}, l.Nodup → ∀ {x : α} {j : ℕ}, l[j]? = some x →
      pyIndex l x = some j := by
  intro l
  induction l with
  | nil => intro _ x j h; simp at h
  | cons y t ih =>
    intro hnd x j h
    have hyt : y ∉ t := (List.nodup_cons.mp hnd).1
    have hndt : t.Nodup := (List.nodup_cons.mp hnd).2
    match j with
    | 0 =>
      simp only [List.getElem?_cons_zero, Option.some.injEq] at h
      simp [pyIndex, h]
    | Nat.succ j =>
      simp only [List.getElem?_cons_succ] at h
      have hx : x ∈ t := List.getElem?_mem h
      have hne : ¬ y = x := fun he => hyt (he ▸ hx)
      simp [pyIndex, hne, ih hndt h]

lemma build_rows_getElem? (d : Dataset) {i : ℕ} (hi : i < d.countries.length) :
    (build_rows d)[i]? = some (buildRow d i) := by
  simp [build_rows, List.getElem?_map, List.getElem?_range hi]

lemma build_rows_length (d : Dataset) :
    (build_rows d).length = d.countries.length := by
  simp [build_rows]

lemma mem_build_rows {d : Dataset} {r : Row} :
    r ∈ build_rows d ↔ ∃ i, i < d.countries.length ∧ r = buildRow d i := by
  simp [build_rows, List.mem_map, List.mem_range, eq_comm]

lemma lookup_isSome_of_mem {α β : Type} [DecidableEq α]
    {l : List (α × β)} {k : α} {v : β} (h : (k, v) ∈ l) :
    (l.lookup k).isSome = true := by
  induction l with
  | nil => simp at h
  | cons p t ih =>
    obtain ⟨a, b⟩ := p
    rcases List.mem_cons.mp h with he | ht
    · cases he
      simp [List.lookup]
    · by_cases hk : k = a
      · simp [List.lookup, hk]
      · have hbeq : (k == a) = false := by simp [hk]
        simpa [List.lookup, hbeq] using ih ht

lemma lookup_eq_none_of_keys {α β : Type} [DecidableEq α]
    {l : List (α × β)} {k : α} (h : ∀ p ∈ l, p.1 ≠ k) : l.lookup k = none := by
  induction l with
  | nil => rfl
  | cons p t ih =>
    obtain ⟨a, b⟩ := p
    have hka : (k == a) = false := by
      simp only [beq_eq_false_iff_ne, ne_eq]
      exact fun he => h (a, b) (List.mem_cons_self _ _) he.symm
    simpa [List.lookup, hka] using ih fun q hq => h q (List.mem_cons_of_mem _ hq)

lemma clusterAvgLines_mem {avg : List (String × Option ℚ)} {nm s} :
    (nm, s) ∈ clusterAvgLines avg → ∃ v : ℚ, (nm, some v) ∈ avg := by
  intro h
  rw [clusterAvgLines] at h
  obtain ⟨⟨nm2, v2⟩, hmem, hf⟩ := List.mem_filterMap.mp h
  match v2 with
  | none => simp at hf
  | some v =>
    refine ⟨v, ?_⟩
    have : nm2 = nm := by
      simpa using congrArg (fun o => o.map Prod.fst) hf
    exact this ▸ hmem

lemma build_rows_map_cluster (d : Dataset)
    (hlen : d.clusters.length = d.countries.length) :
    (build_rows d).map Row.Cluster = d.clusters := by
  apply List.ext_getElem?
  intro i
  by_cases hi : i < d.countries.length
  · rw [List.getElem?_map, build_rows_getElem? d hi]
    have hic : i < d.clusters.length := by omega
    simp [buildRow, List.getD_eq_getElem?_getD, List.getElem?_eq_getElem hic]
  · have h1 : (build_rows d).length ≤ i := by
      rw [build_rows_length]; omega
    have h2 : d.clusters.length ≤ i := by omega
    rw [List.getElem?_map, List.getElem?_eq_none h1, List.getElem?_eq_none h2]
    rfl

lemma profiles_map_fst (d : Dataset) (sc : List (ℤ × Bool)) :
    (cluster_profiles d sc).map Prod.fst =
      ([0, 1, 2, 3] : List ℤ).filter fun c => (sc.lookup c).getD true := by
  have h4 : ((List.range 4).map fun n => (n : ℤ)) = ([0, 1, 2, 3] : List ℤ) := by
    decide
  rw [cluster_profiles, h4]
  have : ∀ l : List ℤ,
      (l.filterMap fun cid =>
        if (sc.lookup cid).getD true then some (cid, cluster_summary d cid)
        else none).map Prod.fst = l.filter fun c => (sc.lookup c).getD true := by
    intro l
    induction l with
    | nil => rfl
    | cons c t ih =>
      by_cases hc : (sc.lookup c).getD true <;>
        simp [List.filterMap_cons, List.filter_cons, hc, ih]
  exact this _

lemma gdpExampleVal_eq : gdpExampleVal = 52000.4 := by
  rw [gdpExampleVal, Rat.mk'_eq_divInt, Rat.divInt_eq_div]
  norm_num

lemma lifeExampleVal_eq : lifeExampleVal = 7.86 := by
  rw [lifeExampleVal, Rat.mk'_eq_divInt, Rat.divInt_eq_div]
  norm_num

/-! ## Claim theorems -/

/-- Claim C1: for every valid Dataset d, build_rows d yields exactly
len(countries) rows, and for every index i the row at i has Country equal
to countries[i], Cluster equal to clusters[i], and Cluster_Name equal to
cluster_labels[str(clusters[i])] (index alignment preserved). -/
theorem build_rows_len_aligned (d : Dataset) (hv : d.valid) :
    (build_rows d).length = d.countries.length ∧
    ∀ i, i < d.countries.length →
      ((build_rows d)[i]?.map Row.Country) = d.countries[i]? ∧
      ((build_rows d)[i]?.map Row.Cluster) = d.clusters[i]? ∧
      (∀ r, (build_rows d)[i]? = some r →
        d.cluster_labels.lookup (toString r.Cluster) = some r.Cluster_Name) := by
  obtain ⟨hnd, hlen, hemb, hind, hlab⟩ := hv
  refine ⟨build_rows_length d, fun i hi => ?_⟩
  have hic : i < d.clusters.length := by omega
  rw [build_rows_getElem? d hi]
  refine ⟨?_, ?_, ?_⟩
  · simp [buildRow, List.getD_eq_getElem?_getD, List.getElem?_eq_getElem hi]
  · simp [buildRow, List.getD_eq_getElem?_getD, List.getElem?_eq_getElem hic]
  · intro r hr
    rw [Option.some.injEq] at hr
    subst hr
    have hmem : d.clusters.getD i 0 ∈ d.clusters := by
      rw [List.getD_eq_getElem?_getD, List.getElem?_eq_getElem hic]
      exact List.getElem_mem hic
    obtain ⟨x, hx⟩ := Option.isSome_iff_exists.mp (hlab _ hmem)
    rw [List.getD_eq_getElem?_getD] at hx
    simp [buildRow, List.getD_eq_getElem?_getD, hx]

/-- Witness for C1 at the concrete dataset dEx. -/
theorem build_rows_len_aligned_witness :
    dEx.valid ∧
    (build_rows dEx).length = dEx.countries.length ∧
    ((build_rows dEx)[1]?.map Row.Cluster) = dEx.clusters[1]? :=
  ⟨by decide, (build_rows_len_aligned dEx (by decide)).1,
   ((build_rows_len_aligned dEx (by decide)).2 1 (by decide)).2.1⟩

/-- Claim C2: filter_rows keeps exactly the rows whose Cluster is a member
of the visible set, in the original order (it is a sublist of the input);
with the empty set it returns an empty sequence, and when every cluster id
present is visible it returns the rows unchanged. -/
theorem filter_rows_spec (rows : List Row) (visible : List ℤ) :
    (∀ r, r ∈ filter_rows rows visible ↔ r ∈ rows ∧ r.Cluster ∈ visible) ∧
    List.Sublist (filter_rows rows visible) rows ∧
    filter_rows rows [] = [] ∧
    ((∀ r ∈ rows, r.Cluster ∈ visible) → filter_rows rows visible = rows) := by
  refine ⟨fun r => ?_, List.filter_sublist rows, ?_, fun h => ?_⟩
  · simp [filter_rows, List.mem_filter]
  · simp [filter_rows]
  · exact List.filter_eq_self.mpr fun r hr => by simpa using h r hr

/-- Witness for C2 at the concrete dataset dEx. -/
theorem filter_rows_spec_witness :
    ((buildRow dEx 0) ∈ filter_rows (build_rows dEx) [0, 1] ↔
      (buildRow dEx 0) ∈ build_rows dEx ∧ (buildRow dEx 0).Cluster ∈ [0, 1]) ∧
    filter_rows (build_rows dEx) [] = [] ∧
    ((∀ r ∈ build_rows dEx, r.Cluster ∈ ([0, 1] : List ℤ)) ∧
      filter_rows (build_rows dEx) [0, 1] = build_rows dEx) :=
  ⟨(filter_rows_spec (build_rows dEx) [0, 1]).1 _,
   (filter_rows_spec (build_rows dEx) []).2.2.1,
   ⟨by decide, (filter_rows_spec (build_rows dEx) [0, 1]).2.2.2 (by decide)⟩⟩

/-- Claim C3 counterexample: load raises no MalformedDataError — on a
document missing the countries key, and on one where clusters is shorter
than countries, it returns the parsed document unchanged without error. -/
theorem load_data_counterexample :
    load_data (some docMissingCountries) = .ok docMissingCountries ∧
    load_data (some docLengthMismatch) = .ok docLengthMismatch :=
  ⟨rfl, rfl⟩

/-- Claim C3 amended: load_data performs no schema validation (every
present document loads successfully); a missing countries key instead
surfaces as a KeyError and a clusters/countries length mismatch as a
ValueError when the row table df is assembled. -/
theorem load_data_defers_validation :
    (∀ doc : RawDoc, load_data (some doc) = .ok doc) ∧
    build_df docMissingCountries = .error (.keyError "countries") ∧
    build_df docLengthMismatch = .error .valueError :=
  ⟨fun _ => rfl, by decide, by decide⟩

/-- Claim C4: an indicator whose name contains "GDP" formats numeric
values as currency with zero decimal places and thousands separators
(52000.4 renders as "$52,000"); any other numeric value formats with
exactly one decimal place (7.86 renders as "7.9"); a null value renders
as the literal string "N/A". -/
theorem format_metric_policy :
    (∀ name, formatMetricValue name none = "N/A") ∧
    (∀ name v, strContainsSub name "GDP" = true →
      formatMetricValue name (some v) = pyFormatCurrency0 v) ∧
    (∀ name v, strContainsSub name "GDP" = false →
      formatMetricValue name (some v) = pyFormatFixed1 v) ∧
    formatMetricValue "GDP per capita" (some (52000.4 : ℚ)) = "$52,000" ∧
    formatMetricValue "Life Expectancy" (some (7.86 : ℚ)) = "7.9" := by
  refine ⟨fun name => rfl, fun name v h => by simp [formatMetricValue, h],
    fun name v h => by simp [formatMetricValue, h], ?_, ?_⟩
  · rw [← gdpExampleVal_eq]
    decide
  · rw [← lifeExampleVal_eq]
    decide

/-- Witness for C4 at concrete indicator names and values. -/
theorem format_metric_policy_witness :
    strContainsSub "GDP per capita" "GDP" = true ∧
    formatMetricValue "GDP per capita" (some 3) = pyFormatCurrency0 3 ∧
    strContainsSub "Life Expectancy" "GDP" = false ∧
    formatMetricValue "Life Expectancy" (some 3) = pyFormatFixed1 3 :=
  ⟨by decide, format_metric_policy.2.1 "GDP per capita" 3 (by decide),
   by decide, format_metric_policy.2.2.1 "Life Expectancy" 3 (by decide)⟩

/-- Claim C5 counterexample: on a valid dataset with three indicators the
country detail returns values for only the first two (the three-column
layout, whose first column shows the cluster, caps the display), so the
third indicator is absent from the result. -/
theorem country_detail_counterexample :
    dThreeInd.valid ∧
    (country_detail dThreeInd "Alpha").toOption.map
      (fun cd => cd.metrics.map fun m => m.1) = some ["I1", "I2"] ∧
    dThreeInd.indicators.map Prod.fst = ["I1", "I2", "I3"] := by
  decide

/-- Claim C5 amended: country_detail raises NotFoundError for every name
not in countries; for a present name with first index idx it returns the
cluster label of clusters[idx] and, for each of the first two indicators
(the three-column layout caps the display), the value at index idx in
that indicator sequence. -/
theorem country_detail_spec (d : Dataset) (name : String) (hv : d.valid) :
    (name ∉ d.countries → country_detail d name = .error .notFound) ∧
    (∀ idx, pyIndex d.countries name = some idx →
      d.countries[idx]? = some name ∧
      ∃ cd, country_detail d name = .ok cd ∧
        d.cluster_labels.lookup (toString (d.clusters.getD idx 0)) =
          some cd.cluster_name ∧
        cd.metrics = (d.indicators.take 2).map fun p =>
          (p.1, p.2.getD idx none, formatMetricValue p.1 (p.2.getD idx none))) := by
  obtain ⟨hnd, hlen, hemb, hind, hlab⟩ := hv
  constructor
  · intro hnm
    simp [country_detail, pyIndex_eq_none hnm]
  · intro idx hidx
    refine ⟨pyIndex_some_getElem? hidx, ?_⟩
    have hi : idx < d.countries.length := pyIndex_some_lt hidx
    have hic : idx < d.clusters.length := by omega
    have hmem : d.clusters.getD idx 0 ∈ d.clusters := by
      rw [List.getD_eq_getElem?_getD, List.getElem?_eq_getElem hic]
      exact List.getElem_mem hic
    obtain ⟨x, hx⟩ := Option.isSome_iff_exists.mp (hlab _ hmem)
    have hcd : country_detail d name = .ok
        { cluster_name :=
            (d.cluster_labels.lookup (toString (d.clusters.getD idx 0))).getD ""
          metrics := (d.indicators.take 2).map fun p =>
            (p.1, p.2.getD idx none, formatMetricValue p.1 (p.2.getD idx none)) } := by
      simp [country_detail, hidx]
    refine ⟨_, hcd, ?_, rfl⟩
    rw [List.getD_eq_getElem?_getD] at hx
    simp [List.getD_eq_getElem?_getD, hx]

/-- Witness for C5 at the concrete dataset dEx. -/
theorem country_detail_spec_witness :
    country_detail dEx "Z" = .error .notFound ∧
    (dEx.countries[0]? = some "A" ∧
      ∃ cd, country_detail dEx "A" = .ok cd ∧
        dEx.cluster_labels.lookup (toString (dEx.clusters.getD 0 0)) =
          some cd.cluster_name ∧
        cd.metrics = (dEx.indicators.take 2).map fun p =>
          (p.1, p.2.getD 0 none, formatMetricValue p.1 (p.2.getD 0 none))) :=
  ⟨(country_detail_spec dEx "Z" (by decide)).1 (by decide),
   (country_detail_spec dEx "A" (by decide)).2 0 (by decide)⟩

/-- Claim C6: the cluster_summary count equals the number of entries of
clusters equal to the cluster id (equivalently, the number of matching
rows of the assembled table), and its averages are taken directly from
cluster_averages[str(cid)] when that key is present, else empty — never
recomputed from the raw indicator sequences (replacing the indicators of
the dataset leaves the averages unchanged). -/
theorem cluster_summary_spec (d : Dataset) (cid : ℤ) :
    (cluster_summary d cid).count = d.clusters.countP (fun c => c == cid) ∧
    (d.valid → (cluster_summary d cid).count =
      ((build_rows d).filter fun r => r.Cluster == cid).length) ∧
    (∀ avgs, d.cluster_averages.lookup (toString cid) = some avgs →
      (cluster_summary d cid).averages = avgs) ∧
    (d.cluster_averages.lookup (toString cid) = none →
      (cluster_summary d cid).averages = []) ∧
    (∀ inds, (cluster_summary { d with indicators := inds } cid).averages =
      (cluster_summary d cid).averages) := by
  refine ⟨(List.countP_eq_length_filter _ _).symm, fun hv => ?_,
    fun avgs h => ?_, fun h => ?_, fun inds => rfl⟩
  · have hmap := build_rows_map_cluster d hv.2.1
    calc (cluster_summary d cid).count
        = (d.clusters.filter fun c => c == cid).length := rfl
      _ = d.clusters.countP fun c => c == cid :=
          (List.countP_eq_length_filter _ _).symm
      _ = ((build_rows d).map Row.Cluster).countP fun c => c == cid := by
          rw [hmap]
      _ = (build_rows d).countP fun r => r.Cluster == cid := by
          rw [List.countP_map]
          rfl
      _ = ((build_rows d).filter fun r => r.Cluster == cid).length :=
          List.countP_eq_length_filter _ _
  · simp [cluster_summary, h]
  · simp [cluster_summary, h]

/-- Witness for C6 at the concrete dataset dEx. -/
theorem cluster_summary_spec_witness :
    (cluster_summary dEx 0).count =
      ((build_rows dEx).filter fun r => r.Cluster == 0).length ∧
    dEx.cluster_averages.lookup (toString (0 : ℤ)) =
      some [("GDP per capita", some gdpExampleVal)] ∧
    (cluster_summary dEx 0).averages = [("GDP per capita", some gdpExampleVal)] :=
  ⟨(cluster_summary_spec dEx 0).2.1 (by decide),
   by decide,
   (cluster_summary_spec dEx 0).2.2.1 _ (by decide)⟩

lemma clusterAvgLines_lookup_none :
    ∀ (avg : List (String × Option ℚ)), (avg.map Prod.fst).Nodup →
      ∀ {name : String}, avg.lookup name = some none →
      (clusterAvgLines avg).lookup name = none := by
  intro avg
  induction avg with
  | nil =>
    intro _ name h
    simp [List.lookup] at h
  | cons p t ih =>
    intro hnd name h
    obtain ⟨a, v⟩ := p
    rw [List.map_cons, List.nodup_cons] at hnd
    by_cases hna : name = a
    · subst hna
      have hv : v = none := by simpa [List.lookup] using h
      subst hv
      refine lookup_eq_none_of_keys fun q hq => ?_
      obtain ⟨nm, s⟩ := q
      intro he
      obtain ⟨w, hw⟩ := clusterAvgLines_mem hq
      rcases List.mem_cons.mp hw with hhead | htail
      · exact Option.noConfusion (congrArg Prod.snd hhead)
      · have hk : nm ∈ t.map Prod.fst := List.mem_map_of_mem Prod.fst htail
        exact hnd.1 (he ▸ hk)
    · have hb : (name == a) = false := by simp [hna]
      have ht : t.lookup name = some none := by simpa [List.lookup, hb] using h
      have hres := ih hnd.2 ht
      cases v with
      | none => simpa [clusterAvgLines, List.filterMap_cons] using hres
      | some x =>
        simpa [clusterAvgLines, List.filterMap_cons, List.lookup, hb] using hres

/-- Claim C7 counterexample: in the cluster profile card a null average
is not displayed as the string "N/A" — the rendering loop skips the
entry and produces no line for that indicator at all. -/
theorem cluster_avg_null_counterexample :
    clusterAvgLines [("Life Expectancy", (none : Option ℚ))] = [] ∧
    ("Life Expectancy", "N/A") ∉
      clusterAvgLines [("Life Expectancy", (none : Option ℚ))] := by
  decide

/-- Claim C7 amended: an indicator whose per-cluster average is null is
skipped by the profile rendering loop — no line is rendered for it, so
in particular it is never displayed as 0 — and every rendered line comes
from a non-null average.  The "N/A" rendering of nulls belongs to the
country detail panel, not to the cluster profile card. -/
theorem cluster_avg_lines_skip_null (avg : List (String × Option ℚ))
    (hkeys : (avg.map Prod.fst).Nodup) (name : String)
    (h : avg.lookup name = some none) :
    (clusterAvgLines avg).lookup name = none ∧
    (∀ s, (name, s) ∉ clusterAvgLines avg) ∧
    (∀ nm s, (nm, s) ∈ clusterAvgLines avg → ∃ v : ℚ, (nm, some v) ∈ avg) := by
  refine ⟨clusterAvgLines_lookup_none avg hkeys h, fun s hs => ?_,
    fun nm s hs => clusterAvgLines_mem hs⟩
  have hsome := lookup_isSome_of_mem hs
  rw [clusterAvgLines_lookup_none avg hkeys h] at hsome
  simp at hsome

/-- Witness for C7 at a concrete averages mapping with a null entry. -/
theorem cluster_avg_lines_skip_null_witness :
    (avgEx.map Prod.fst).Nodup ∧
    avgEx.lookup "Life Expectancy" = some none ∧
    (clusterAvgLines avgEx).lookup "Life Expectancy" = none :=
  ⟨by decide, by decide,
   (cluster_avg_lines_skip_null avgEx (by decide) "Life Expectancy" (by decide)).1⟩

/-- Claim C8: cluster profiles are produced only for the hardcoded ids
0..3: for every dataset and checkbox state the profile ids are the
visible members of [0, 1, 2, 3], and a cluster id outside that range
never yields a profile even when it occurs in clusters or in
cluster_labels (from which the visibility toggles are read dynamically). -/
theorem cluster_profiles_only_range4 (d : Dataset) (checkbox : String → Bool)
    (cid : ℤ) (h : cid ∉ ([0, 1, 2, 3] : List ℤ)) :
    (∀ sc : List (ℤ × Bool), (cluster_profiles d sc).map Prod.fst =
      ([0, 1, 2, 3] : List ℤ).filter fun c => (sc.lookup c).getD true) ∧
    cid ∉ (cluster_profiles d
      (show_clusters_of d.cluster_labels checkbox)).map Prod.fst := by
  refine ⟨profiles_map_fst d, fun hmem => ?_⟩
  rw [profiles_map_fst] at hmem
  exact h (List.mem_of_mem_filter hmem)

/-- Witness for C8: a dataset mentioning cluster id 5 in both clusters
and cluster_labels, with every checkbox on, still yields no profile for
id 5. -/
theorem cluster_profiles_only_range4_witness :
    (5 : ℤ) ∈ dFiveClusters.clusters ∧
    "5" ∈ dFiveClusters.cluster_labels.map Prod.fst ∧
    (5 : ℤ) ∉ (cluster_profiles dFiveClusters
      (show_clusters_of dFiveClusters.cluster_labels fun _ => true)).map
        Prod.fst :=
  ⟨by decide, by decide,
   (cluster_profiles_only_range4 dFiveClusters (fun _ => true) 5 (by decide)).2⟩

/-- Claim C9: when the artifact file is absent, load halts presentation
with the message instructing the user to regenerate the artifact via the
export script; no document results from that run (the condition is
terminal — there is nothing to retry against a static local file). -/
theorem load_data_absent_halts :
    load_data none = .halted missingDataMsg ∧
    (∀ doc : RawDoc, load_data none ≠ .ok doc) ∧
    strContainsSub missingDataMsg "not found" = true ∧
    strContainsSub missingDataMsg "Please run the export script" = true :=
  ⟨rfl, fun doc h => by simp [load_data] at h, by decide, by decide⟩

/-- Claim C10: the selected-country highlight is looked up in the
unfiltered table: when the selected country is present but its cluster id
is toggled invisible, the filtered rows contain no row for it, yet the
highlight lookup is non-empty, every matched row carries the coordinates
of the selected country, and the marker trace is added for every method. -/
theorem highlight_reads_unfiltered (d : Dataset) (hv : d.valid) (sel : String)
    (visible : List ℤ) (idx : ℕ) (hidx : pyIndex d.countries sel = some idx)
    (hhidden : d.clusters.getD idx 0 ∉ visible) (hne : sel ≠ "") :
    (∀ r ∈ filter_rows (build_rows d) visible, r.Country ≠ sel) ∧
    0 < (highlight_rows (build_rows d) sel).length ∧
    (∀ r ∈ highlight_rows (build_rows d) sel,
      r.Cluster = d.clusters.getD idx 0 ∧
      ∀ e ∈ d.embeddings, (e.1, e.2.1.getD idx 0, e.2.2.getD idx 0) ∈ r.coords) ∧
    (∀ method, (highlight_marker (build_rows d) sel method).isSome = true) := by
  have hi : idx < d.countries.length := pyIndex_some_lt hidx
  have hkey : ∀ i, i < d.countries.length → (buildRow d i).Country = sel →
      i = idx := by
    intro i hilt hc
    have hgi : d.countries[i]? = some sel := by
      rw [show (buildRow d i).Country = d.countries.getD i "" from rfl,
        List.getD_eq_getElem?_getD, List.getElem?_eq_getElem hilt] at hc
      rw [List.getElem?_eq_getElem hilt]
      simpa using hc
    have h2 := pyIndex_of_nodup_getElem? hv.1 hgi
    rw [hidx] at h2
    exact (Option.some.inj h2).symm
  have hcountry : (buildRow d idx).Country = sel := by
    have hgs : d.countries[idx]? = some sel := pyIndex_some_getElem? hidx
    simp [buildRow, List.getD_eq_getElem?_getD, hgs]
  have hpos : 0 < (highlight_rows (build_rows d) sel).length := by
    have hmem : buildRow d idx ∈ build_rows d := mem_build_rows.mpr ⟨idx, hi, rfl⟩
    have hin : buildRow d idx ∈ highlight_rows (build_rows d) sel := by
      rw [highlight_rows, List.mem_filter]
      exact ⟨hmem, by simp [hcountry]⟩
    exact List.length_pos.mpr (List.ne_nil_of_mem hin)
  refine ⟨?_, hpos, ?_, ?_⟩
  · intro r hr hc
    obtain ⟨hrmem, hrvis⟩ := List.mem_filter.mp hr
    obtain ⟨i, hilt, rfl⟩ := mem_build_rows.mp hrmem
    have hieq := hkey i hilt hc
    subst hieq
    exact hhidden (by simpa [buildRow] using hrvis)
  · intro r hr
    obtain ⟨hrmem, hrc⟩ := List.mem_filter.mp hr
    obtain ⟨i, hilt, rfl⟩ := mem_build_rows.mp hrmem
    have hieq := hkey i hilt (by simpa using hrc)
    subst hieq
    refine ⟨rfl, fun e he => ?_⟩
    have hmm :=
      List.mem_map_of_mem (fun e => (e.1, e.2.1.getD i 0, e.2.2.getD i 0)) he
    simpa [buildRow] using hmm
  · intro method
    have h0 : ¬ (highlight_rows (build_rows d) sel).length = 0 := by omega
    simp [highlight_marker, hne, h0]

/-- Witness for C10: in dEx, country B sits in cluster 1; with only
cluster 0 visible it is absent from the filtered rows yet its highlight
marker is still produced. -/
theorem highlight_reads_unfiltered_witness :
    (∀ r ∈ filter_rows (build_rows dEx) [0], r.Country ≠ "B") ∧
    0 < (highlight_rows (build_rows dEx) "B").length ∧
    (∀ method, (highlight_marker (build_rows dEx) "B" method).isSome = true) :=
  ⟨(highlight_reads_unfiltered dEx (by decide) "B" [0] 1 (by decide) (by decide)
      (by decide)).1,
   (highlight_reads_unfiltered dEx (by decide) "B" [0] 1 (by decide) (by decide)
      (by decide)).2.1,
   (highlight_reads_unfiltered dEx (by decide) "B" [0] 1 (by decide) (by decide)
      (by decide)).2.2.2⟩

end GlobalHealth
